import Mathlib

/-!
Verification of the Input-Locker device interception core against its
natural-language specification.  The Python source is shallowly embedded:
each mutable object becomes a Lean structure, each method a pure function
from state (plus the event being processed and the current time) to the
new state together with the list of externally visible actions it emits
(writes to the synthetic device, sync reports, callback invocations,
grab/ungrab operations).  Key codes are the concrete Linux evdev codes
used by the source.  Time is modelled as a natural number supplied with
each event; Python's `now - last > timeout` comparison on monotone clocks
coincides with truncated subtraction on naturals.
-/

namespace InputLocker

/-- Linux evdev key codes used by the source (`evdev.ecodes`). -/
def KEY_ESC : ℕ := 1
def KEY_Q : ℕ := 16
def KEY_W : ℕ := 17
def KEY_E : ℕ := 18
def KEY_R : ℕ := 19
def KEY_T : ℕ := 20
def KEY_Y : ℕ := 21
def KEY_U : ℕ := 22
def KEY_I : ℕ := 23
def KEY_O : ℕ := 24
def KEY_P : ℕ := 25
def KEY_ENTER : ℕ := 28
def KEY_LEFTCTRL : ℕ := 29
def KEY_A : ℕ := 30
def KEY_S : ℕ := 31
def KEY_D : ℕ := 32
def KEY_F : ℕ := 33
def KEY_G : ℕ := 34
def KEY_H : ℕ := 35
def KEY_J : ℕ := 36
def KEY_K : ℕ := 37
def KEY_L : ℕ := 38
def KEY_SEMICOLON : ℕ := 39
def KEY_APOSTROPHE : ℕ := 40
def KEY_LEFTSHIFT : ℕ := 42
def KEY_Z : ℕ := 44
def KEY_X : ℕ := 45
def KEY_C : ℕ := 46
def KEY_V : ℕ := 47
def KEY_B : ℕ := 48
def KEY_N : ℕ := 49
def KEY_M : ℕ := 50
def KEY_RIGHTSHIFT : ℕ := 54
def KEY_LEFTALT : ℕ := 56
def KEY_SPACE : ℕ := 57
def KEY_RIGHTCTRL : ℕ := 97
def KEY_RIGHTALT : ℕ := 100
def KEY_UP : ℕ := 103
def KEY_LEFT : ℕ := 105
def KEY_RIGHT : ℕ := 106
def KEY_DOWN : ℕ := 108
def KEY_LEFTMETA : ℕ := 125
def KEY_RIGHTMETA : ℕ := 126

/-- Multi-touch absolute-axis codes: ABS_MT_SLOT, ABS_MT_POSITION_X,
ABS_MT_POSITION_Y, ABS_MT_TRACKING_ID (`device_manager._is_touchscreen`). -/
def ABS_MT_SLOT : ℕ := 47
def ABS_MT_POSITION_X : ℕ := 53
def ABS_MT_POSITION_Y : ℕ := 54
def ABS_MT_TRACKING_ID : ℕ := 57

/-- Mouse button codes; BTN_MOUSE is an alias of BTN_LEFT in evdev. -/
def BTN_LEFT : ℕ := 272
def BTN_RIGHT : ℕ := 273
def BTN_MIDDLE : ℕ := 274
def BTN_MOUSE : ℕ := 272

/-! ## PatternUnlocker (src/src/core/pattern_unlocker.py)

`PatternUnlocker.handle_key(key_code, key_state)` advances a fixed key
sequence on press edges, with a timeout between accepted keys.  State
fields mirror the Python attributes `pattern`, `current_sequence`,
`last_key_time`, `timeout`. -/

structure PatternState where
  pattern : List ℕ
  currentSequence : List ℕ
  lastKeyTime : ℕ
  timeout : ℕ
  deriving Repr, DecidableEq

/-- The default arrows pattern Up, Up, Down, Down, Enter. -/
def arrowsPattern : List ℕ := [KEY_UP, KEY_UP, KEY_DOWN, KEY_DOWN, KEY_ENTER]

/-- The alternate WASD pattern W, W, S, S, Enter. -/
def wasdPattern : List ℕ := [KEY_W, KEY_W, KEY_S, KEY_S, KEY_ENTER]

/-- Fresh pattern state as built by `PatternUnlocker.__init__` / `reset`. -/
def PatternState.init (pat : List ℕ) (tmo : ℕ) : PatternState :=
  { pattern := pat, currentSequence := [], lastKeyTime := 0, timeout := tmo }

/-- Embedding of `PatternUnlocker.handle_key`.  Returns the new state and
whether the full pattern was just completed.  A mismatching key resets the
sequence unconditionally: this method has no modifier-key exemption. -/
def patternHandleKey (ps : PatternState) (code value now : ℕ) :
    PatternState × Bool :=
  if value ≠ 1 then (ps, false)
  else
    let seq0 := if now - ps.lastKeyTime > ps.timeout then [] else ps.currentSequence
    let pos0 := seq0.length
    let seq1 := if pos0 ≥ ps.pattern.length then [] else seq0
    let pos1 := if pos0 ≥ ps.pattern.length then 0 else pos0
    let expected := ps.pattern.getD pos1 0
    if code = expected then
      let seq2 := seq1 ++ [code]
      if seq2.length = ps.pattern.length then
        ({ ps with currentSequence := [], lastKeyTime := now }, true)
      else
        ({ ps with currentSequence := seq2, lastKeyTime := now }, false)
    else
      ({ ps with currentSequence := [], lastKeyTime := now }, false)

/-! ## _check_pattern (src/api/simple_blocker.py and src/api/_internal.py)

Both API blockers carry the pattern state in the fields `pattern`,
`pattern_sequence` / `pattern_seq` and `pattern_last_time`; the method is
only invoked on press events (value == 1), so the embedding takes just the
key code and the current time. -/

/-- Left and right modifier codes exempted from the pattern reset in
`_check_pattern` (Ctrl, Alt, Shift in both forms). -/
def modifierCodesLR : List ℕ :=
  [KEY_LEFTCTRL, KEY_RIGHTCTRL, KEY_LEFTALT, KEY_RIGHTALT,
   KEY_LEFTSHIFT, KEY_RIGHTSHIFT]

/-- Embedding of `SimpleBlocker._check_pattern` / `_Blocker._check_pattern`.
A mismatching key resets the sequence only when it is not a modifier. -/
def checkPattern (ps : PatternState) (code now : ℕ) : PatternState × Bool :=
  let seq0 := if now - ps.lastKeyTime > ps.timeout then [] else ps.currentSequence
  let pos0 := seq0.length
  let seq1 := if pos0 ≥ ps.pattern.length then [] else seq0
  let pos1 := if pos0 ≥ ps.pattern.length then 0 else pos0
  let expected := ps.pattern.getD pos1 0
  if code = expected then
    let seq2 := seq1 ++ [code]
    if seq2.length = ps.pattern.length then
      ({ ps with currentSequence := [], lastKeyTime := now }, true)
    else
      ({ ps with currentSequence := seq2, lastKeyTime := now }, false)
  else
    if code ∈ modifierCodesLR then
      ({ ps with lastKeyTime := now }, false)
    else
      ({ ps with currentSequence := [], lastKeyTime := now }, false)

/-! ## SelectiveKeyboardBlocker (src/src/core/selective_keyboard_blocker.py)

The forwarder holds an exclusive grab on one physical keyboard and
re-emits allowed events through a synthetic (UInput) device.  Externally
visible effects are modelled as a list of actions per processed event. -/

/-- Externally visible effects of the forwarder: a write of one event to
the synthetic device, a sync report on it, an invocation of the unlock
callback, releasing the exclusive grab, and destroying the synthetic
device. -/
inductive Action where
  | write (etype code value : ℕ)
  | syn
  | callback
  | ungrab
  | closeVirtual
  deriving Repr, DecidableEq

/-- State of one `SelectiveKeyboardBlocker`: the allowed key set (hotkey
keys plus pattern keys), the configured hotkey chord, the running flag,
the keys currently tracked as pressed, the chord re-fire guard
`hotkey_triggered`, whether the synthetic device currently exists, and the
embedded `PatternUnlocker` state. -/
structure FwdState where
  allowedKeys : Finset ℕ
  hotkeyKeys : Finset ℕ
  running : Bool
  pressedKeys : Finset ℕ
  hotkeyTriggered : Bool
  virtualDevice : Bool
  pattern : PatternState
  deriving DecidableEq

/-- Forwarder state as produced by `__init__` followed by a successful
`start()`: pattern keys are added to the allowed set, the synthetic
device exists, the grab is held, pressed keys and the trigger guard are
cleared and the pattern detector is reset. -/
def FwdState.started (hotkey : Finset ℕ) (patternKeys : List ℕ) : FwdState :=
  { allowedKeys := hotkey ∪ patternKeys.toFinset
    hotkeyKeys := hotkey
    running := true
    pressedKeys := ∅
    hotkeyTriggered := false
    virtualDevice := true
    pattern := PatternState.init patternKeys 3 }

/-- The pressed-set bookkeeping of `_handle_key_event`: a press adds the
code, a release removes it and clears the re-fire guard when the code is
an allowed key, a repeat changes nothing. -/
def updatePressed (s : FwdState) (code value : ℕ) : FwdState :=
  if value = 1 then { s with pressedKeys := insert code s.pressedKeys }
  else if value = 0 then
    { s with
      pressedKeys := s.pressedKeys.erase code
      hotkeyTriggered :=
        if code ∈ s.allowedKeys then false else s.hotkeyTriggered }
  else s

/-- Embedding of `SelectiveKeyboardBlocker._handle_key_event` for one
EV_KEY event `(code, value)` arriving at time `now`.  The pattern
detector runs first; if it fires, the callback was invoked inside it and
the event is not processed further (in particular it is not forwarded).
Otherwise the pressed set and the re-fire guard are updated, and only a
key in the allowed set is written to the synthetic device; on a press
edge completing the chord while the guard is clear, the callback runs. -/
def handleKeyEvent (s : FwdState) (code value now : ℕ) :
    FwdState × List Action :=
  let pr := patternHandleKey s.pattern code value now
  let s1 := { s with pattern := pr.1 }
  if pr.2 then (s1, [Action.callback])
  else
    let s2 := updatePressed s1 code value
    if code ∈ s2.allowedKeys then
      let fwd :=
        if s2.virtualDevice then [Action.write 1 code value, Action.syn] else []
      if value = 1 ∧ s2.hotkeyTriggered = false ∧ s2.hotkeyKeys ⊆ s2.pressedKeys then
        ({ s2 with hotkeyTriggered := true }, fwd ++ [Action.callback])
      else (s2, fwd)
    else (s2, [])

/-- Process a list of events in order, accumulating the emitted actions. -/
def runFwd (s : FwdState) (evs : List (ℕ × ℕ × ℕ)) : FwdState × List Action :=
  evs.foldl
    (fun acc ev =>
      let r := handleKeyEvent acc.1 ev.1 ev.2.1 ev.2.2
      (r.1, acc.2 ++ r.2))
    (s, [])

/-- Actions emitted by `SelectiveKeyboardBlocker.stop()`.  When the
forwarder is running: every key tracked as pressed on the synthetic
device is released (key-up write) followed by one sync, then the grab is
released, then the synthetic device is destroyed.  When it is not
running, `stop()` returns immediately. -/
def stopActions (s : FwdState) : List Action :=
  if s.running = false then []
  else
    (if s.virtualDevice ∧ s.pressedKeys ≠ ∅ then
       ((s.pressedKeys.sort (· ≤ ·)).map (fun k => Action.write 1 k 0)) ++
         [Action.syn]
     else []) ++
    [Action.ungrab] ++
    (if s.virtualDevice then [Action.closeVirtual] else [])

/-- Forwarder state after `stop()`: the pressed set and the trigger guard
are cleared, the synthetic device is gone and the pattern detector is
reset. -/
def stopState (s : FwdState) : FwdState :=
  if s.running = false then s
  else
    { s with
      running := false
      pressedKeys := ∅
      hotkeyTriggered := false
      virtualDevice := false
      pattern := PatternState.init s.pattern.pattern s.pattern.timeout }

/-- Count of callback invocations in a list of actions. -/
def callbackCount (l : List Action) : ℕ :=
  (l.filter (fun a => a = Action.callback)).length

/-- Whether an action is a write to the synthetic device. -/
def Action.isWrite : Action → Bool
  | Action.write _ _ _ => true
  | _ => false

/-! ## String helpers

Python's `split('+')`, `strip()` and `lower()` are embedded as
structurally recursive functions on the character list of a string, so
that every definition evaluates inside the kernel.  Lowercasing is the
ASCII one (the claims involve only ASCII hotkey strings and names). -/

/-- Split a character list on a separator character; Python's
`str.split(sep)` (the empty string yields one empty part). -/
def splitOnChar (sep : Char) : List Char → List (List Char)
  | [] => [[]]
  | c :: cs =>
      let r := splitOnChar sep cs
      if c = sep then [] :: r
      else
        match r with
        | [] => [[c]]
        | h :: t => (c :: h) :: t

/-- Python's `str.strip()`: drop whitespace from both ends. -/
def trimChars (l : List Char) : List Char :=
  ((l.dropWhile Char.isWhitespace).reverse.dropWhile Char.isWhitespace).reverse

/-- Strip one part: `part.strip().lower()` as a string again. -/
def normPart (l : List Char) : String :=
  ⟨(trimChars l).map Char.toLower⟩

/-- The `part.strip().lower()` pieces of a '+'-separated string. -/
def plusParts (s : String) : List String :=
  (splitOnChar '+' s.data).map normPart

/-! ## HotkeyHandler (src/src/core/hotkey_handler.py)

The global hotkey listener parses a chord string such as "Ctrl+Alt+L"
into a set of key codes, tracks pressed keys, and runs the callback once
the chord was completed and every key was released again. -/

/-- Name-to-code table of `HotkeyHandler._parse_hotkey` (modifiers map to
their left-hand codes; letters a-z map to their key codes; anything else
is unknown). -/
def hhKeyMap (p : String) : Option ℕ :=
  match p with
  | "ctrl" => some KEY_LEFTCTRL
  | "control" => some KEY_LEFTCTRL
  | "alt" => some KEY_LEFTALT
  | "shift" => some KEY_LEFTSHIFT
  | "super" => some KEY_LEFTMETA
  | "win" => some KEY_LEFTMETA
  | "cmd" => some KEY_LEFTMETA
  | "a" => some KEY_A
  | "b" => some KEY_B
  | "c" => some KEY_C
  | "d" => some KEY_D
  | "e" => some KEY_E
  | "f" => some KEY_F
  | "g" => some KEY_G
  | "h" => some KEY_H
  | "i" => some KEY_I
  | "j" => some KEY_J
  | "k" => some KEY_K
  | "l" => some KEY_L
  | "m" => some KEY_M
  | "n" => some KEY_N
  | "o" => some KEY_O
  | "p" => some KEY_P
  | "q" => some KEY_Q
  | "r" => some KEY_R
  | "s" => some KEY_S
  | "t" => some KEY_T
  | "u" => some KEY_U
  | "v" => some KEY_V
  | "w" => some KEY_W
  | "x" => some KEY_X
  | "y" => some KEY_Y
  | "z" => some KEY_Z
  | _ => none

/-- Embedding of `HotkeyHandler._parse_hotkey`: split on '+', strip and
lowercase each part, collect the codes of the known parts, silently
skipping unknown ones. -/
def parseHotkey (s : String) : Finset ℕ :=
  (plusParts s).foldl
    (fun acc p =>
      match hhKeyMap p with
      | some c => insert c acc
      | none => acc)
    ∅

/-- Embedding of the configuration step of `HotkeyHandler.__init__`
(lines 39-47): parse the string; only when the parsed set is empty fall
back to the default "Ctrl+Alt+L".  Returns (required key set, hotkey
string actually kept). -/
def hotkeyHandlerInit (s : String) : Finset ℕ × String :=
  let req := parseHotkey s
  if req = ∅ then (parseHotkey "Ctrl+Alt+L", "Ctrl+Alt+L") else (req, s)

/-- State of a `HotkeyHandler`: the hotkey string and parsed required
set, the pressed-key set, the last-trigger timestamp used for the 0.5 s
debounce, the pending-release flag, the running flag and a count of
callback invocations (the externally visible firings). -/
structure HHState where
  hotkeyString : String
  required : Finset ℕ
  pressed : Finset ℕ
  lastTrigger : ℕ
  pending : Bool
  isRunning : Bool
  callbackRuns : ℕ
  deriving DecidableEq

/-- Debounce interval of `HotkeyHandler` (0.5 s, modelled in
milliseconds). -/
def hhDebounce : ℕ := 500

/-- Embedding of `HotkeyHandler._handle_key_event`.  The raw event code
is used directly: this handler performs no right-to-left modifier
canonicalization.  On a press, the code joins the pressed set and, if the
required set is a subset of the pressed set and the debounce interval has
elapsed, the pending-release flag is set; on a release, the code leaves
the pressed set and, if a callback is pending and no key remains pressed,
the callback runs. -/
def hhHandleKey (s : HHState) (code value now : ℕ) : HHState :=
  if value = 1 then
    let s := { s with pressed := insert code s.pressed }
    if s.required ⊆ s.pressed then
      if now - s.lastTrigger < hhDebounce then s
      else { s with lastTrigger := now, pending := true }
    else s
  else if value = 0 then
    let s := { s with pressed := s.pressed.erase code }
    if s.pending ∧ s.pressed = ∅ then
      { s with pending := false, callbackRuns := s.callbackRuns + 1 }
    else s
  else s

/-- Embedding of `HotkeyHandler.stop()` on the state fields it touches. -/
def hhStop (s : HHState) : HHState :=
  if s.isRunning = false then s
  else { s with isRunning := false, pressed := ∅, pending := false }

/-- Embedding of a successful `HotkeyHandler.start()` on the state fields
it touches (keyboard devices found and a callback registered). -/
def hhStart (s : HHState) : HHState :=
  if s.isRunning then s
  else { s with pressed := ∅, lastTrigger := 0, isRunning := true }

/-- Embedding of `HotkeyHandler.update_hotkey`: stop if running, store
the new string and its parsed set unconditionally, then warn (keeping the
empty set) when nothing parsed, else clear the pressed set; restart if it
was running. -/
def hhUpdateHotkey (s : HHState) (new : String) : HHState :=
  let was := s.isRunning
  let s := if was then hhStop s else s
  let s := { s with hotkeyString := new, required := parseHotkey new }
  let s := if parseHotkey new = ∅ then s else { s with pressed := ∅ }
  if was then hhStart s else s

/-- Process a list of `(code, value, now)` events with the handler. -/
def runHH (s : HHState) (evs : List (ℕ × ℕ × ℕ)) : HHState :=
  evs.foldl (fun st ev => hhHandleKey st ev.1 ev.2.1 ev.2.2) s

/-! ## _Blocker (src/api/_internal.py)

The API-internal blocker keeps a hotkey key set `HOTKEY`, normalizes a
configured chord string via `set_hotkey_from_string`, and detects the
chord in `_check_hotkey` with Right-Ctrl/Right-Alt folded onto their
left-hand codes. -/

/-- Name-to-code table of `_Blocker.set_hotkey_from_string`: modifiers,
a best-effort mapping for the cedilla key, and letters a-z. -/
def blockerKeyMap (p : String) : Option ℕ :=
  match p with
  | "ctrl" => some KEY_LEFTCTRL
  | "control" => some KEY_LEFTCTRL
  | "alt" => some KEY_LEFTALT
  | "shift" => some KEY_LEFTSHIFT
  | "super" => some KEY_LEFTMETA
  | "win" => some KEY_LEFTMETA
  | "cmd" => some KEY_LEFTMETA
  | "ç" => some KEY_APOSTROPHE
  | "cedilla" => some KEY_APOSTROPHE
  | _ => hhKeyMap p

/-- Modifier codes recognized by `set_hotkey_from_string`. -/
def blockerModifierCodes : Finset ℕ :=
  {KEY_LEFTCTRL, KEY_LEFTALT, KEY_LEFTSHIFT, KEY_LEFTMETA}

/-- The stripped, lowercased, non-empty parts of a hotkey string, with
the empty string replaced by the default beforehand. -/
def blockerParts (s : String) : List String :=
  let s := if s = "" then "Ctrl+Alt+L" else s
  ((splitOnChar '+' s.data).filter (fun p => trimChars p ≠ [])).map normPart

/-- Key set collected from the known parts of a hotkey string. -/
def blockerNewSet (s : String) : Finset ℕ :=
  (blockerParts s).foldl
    (fun acc p =>
      match blockerKeyMap p with
      | some c => insert c acc
      | none => acc)
    ∅

/-- Whether any part of the hotkey string parses to a non-modifier code. -/
def blockerHasNonModifier (s : String) : Bool :=
  (blockerParts s).any
    (fun p =>
      match blockerKeyMap p with
      | some c => decide (c ∉ blockerModifierCodes)
      | none => false)

/-- Embedding of `_Blocker.set_hotkey_from_string`: when the collected
set is empty or contains no non-modifier key, fall back to the default
chord Ctrl+Alt+L; otherwise keep the collected set and the requested
string.  Returns (HOTKEY set, hotkey string kept). -/
def setHotkeyFromString (s : String) : Finset ℕ × String :=
  let s := if s = "" then "Ctrl+Alt+L" else s
  if blockerNewSet s = ∅ ∨ blockerHasNonModifier s = false then
    ({KEY_LEFTCTRL, KEY_LEFTALT, KEY_L}, "Ctrl+Alt+L")
  else (blockerNewSet s, s)

/-- Right-to-left canonicalization performed by `_Blocker._check_hotkey`
(and `SimpleBlocker._check_hotkey`): only Right-Ctrl and Right-Alt are
folded; Right-Shift is left untouched. -/
def checkHotkeyCanon (code : ℕ) : ℕ :=
  if code = KEY_RIGHTCTRL then KEY_LEFTCTRL
  else if code = KEY_RIGHTALT then KEY_LEFTALT
  else code

/-- State used by `_Blocker._check_hotkey`: the pressed set, the hotkey
chord, the last-lock timestamp for the 0.5 s debounce guard, and a count
of lock invocations (the externally visible firings). -/
structure CHState where
  pressed : Finset ℕ
  hotkey : Finset ℕ
  lastLock : ℕ
  lockRuns : ℕ
  deriving DecidableEq

/-- Embedding of `_Blocker._check_hotkey` for one EV_KEY event. -/
def checkHotkey (s : CHState) (code value now : ℕ) : CHState :=
  let c := checkHotkeyCanon code
  if value = 1 then
    let s := { s with pressed := insert c s.pressed }
    if s.hotkey ⊆ s.pressed ∧ now - s.lastLock > hhDebounce then
      { s with lastLock := now, lockRuns := s.lockRuns + 1 }
    else s
  else if value = 0 then
    { s with pressed := s.pressed.erase c }
  else s

/-- Process a list of `(code, value, now)` events with `_check_hotkey`. -/
def runCH (s : CHState) (evs : List (ℕ × ℕ × ℕ)) : CHState :=
  evs.foldl (fun st ev => checkHotkey st ev.1 ev.2.1 ev.2.2) s

/-! ## InputBlocker (src/src/core/input_blocker.py)

`lock_all` walks the device table, creating a selective blocker per
enabled keyboard and a plain exclusive grab per enabled mouse/touchpad;
touchscreens are skipped; a per-device acquisition failure is caught and
the loop continues; at the end the controller is marked locked.
`_unlock_all_internal` releases everything and restarts the global
hotkey handler. -/

inductive DeviceType where
  | keyboard
  | mouse
  | touchscreen
  | touchpad
  | unknown
  deriving Repr, DecidableEq

/-- One entry of `InputBlocker.devices`: a device id with its classified
type and enabled flag. -/
structure DevEntry where
  id : ℕ
  dtype : DeviceType
  enabled : Bool
  deriving Repr, DecidableEq

/-- Controller state: the locked flag, the set of locked device ids, the
ids owning a `SelectiveKeyboardBlocker`, and whether the global hotkey
handler is running. -/
structure BlockerState where
  isLocked : Bool
  lockedDevices : Finset ℕ
  selectiveBlockers : Finset ℕ
  hotkeyRunning : Bool
  deriving DecidableEq

/-- Per-device step of the `lock_all` loop.  `fails` is the set of device
ids whose acquisition raises (grab failure, synthetic-device creation
failure, `_block_device` returning false); the exception is caught and
the device skipped.  Disabled devices and touchscreens are skipped;
unknown-type devices match no branch. -/
def lockDeviceStep (fails : Finset ℕ) (st : BlockerState) (d : DevEntry) :
    BlockerState :=
  if d.enabled = false then st
  else
    match d.dtype with
    | DeviceType.touchscreen => st
    | DeviceType.keyboard =>
        if d.id ∈ fails then st
        else
          { st with
            selectiveBlockers := insert d.id st.selectiveBlockers
            lockedDevices := insert d.id st.lockedDevices }
    | DeviceType.mouse =>
        if d.id ∈ fails then st
        else { st with lockedDevices := insert d.id st.lockedDevices }
    | DeviceType.touchpad =>
        if d.id ∈ fails then st
        else { st with lockedDevices := insert d.id st.lockedDevices }
    | DeviceType.unknown => st

/-- Embedding of `InputBlocker.lock_all`: a no-op when already locked;
otherwise the global hotkey handler is stopped, each device is attempted
in turn with per-device failures tolerated, and the controller ends up
locked. -/
def lockAll (devs : List DevEntry) (fails : Finset ℕ) (s : BlockerState) :
    BlockerState :=
  if s.isLocked then s
  else
    let s := { s with hotkeyRunning := false }
    let s := devs.foldl (lockDeviceStep fails) s
    { s with isLocked := true }

/-- Embedding of `InputBlocker._unlock_all_internal`: a no-op when not
locked; otherwise every selective blocker is stopped, every grab
released, the sets cleared, the controller marked unlocked and the global
hotkey handler restarted. -/
def unlockAll (s : BlockerState) : BlockerState :=
  if s.isLocked = false then s
  else
    { isLocked := false
      lockedDevices := ∅
      selectiveBlockers := ∅
      hotkeyRunning := true }

/-- A device entry is a lock candidate when it is enabled and of a type
the lock loop acquires (keyboard, mouse or touchpad). -/
def isCandidate (d : DevEntry) : Bool :=
  d.enabled &&
    (d.dtype = DeviceType.keyboard || d.dtype = DeviceType.mouse ||
      d.dtype = DeviceType.touchpad)

/-! ## DeviceManager classification (src/src/core/device_manager.py)

`_classify_device(name, caps)` checks the multi-touch capability test
first, then case-insensitive name patterns for touchscreen, touchpad,
keyboard and mouse in that order, then the keyboard-key and
pointer-device capability heuristics.  Each of the source's regular
expressions is of the form `lit` or `lit1.*lit2` (a leading or trailing
`.*` is redundant under `re.search`), so a pattern is embedded as the
list of its literal pieces which must occur in order in the name. -/

/-- Capability bitmap of a device: the EV_ABS codes when the device has
absolute axes, the EV_KEY codes when it has keys, and whether it has
relative axes (EV_REL). -/
structure Caps where
  absCodes : Option (List ℕ)
  keyCodes : Option (List ℕ)
  hasRel : Bool
  deriving Repr, DecidableEq

/-- Strip `pat` from the front of `s`; some remainder on success. -/
def stripFront : List Char → List Char → Option (List Char)
  | [], s => some s
  | _ :: _, [] => none
  | p :: ps, c :: cs => if p = c then stripFront ps cs else none

/-- The rest of `s` after the first occurrence of the literal `pat`, or
none when `pat` does not occur in `s`. -/
def restAfter (pat : List Char) : List Char → Option (List Char)
  | [] => stripFront pat []
  | c :: cs =>
      match stripFront pat (c :: cs) with
      | some r => some r
      | none => restAfter pat cs

/-- Whether the literal pieces occur in `s` in order (the embedding of
`re.search` for a pattern of the form `lit1.*lit2.*...`). -/
def matchPieces : List String → List Char → Bool
  | [], _ => true
  | p :: ps, s =>
      match restAfter p.data s with
      | none => false
      | some r => matchPieces ps r

/-- Whether any pattern of the list matches the name. -/
def anyPattern (pats : List (List String)) (name : String) : Bool :=
  pats.any (fun p => matchPieces p name.data)

def touchscreenPatterns : List (List String) :=
  [["touchscreen"], ["touch", "screen"], ["ts"]]

def touchpadPatterns : List (List String) :=
  [["touchpad"], ["synaptics"], ["elan", "touchpad"]]

def keyboardPatterns : List (List String) :=
  [["keyboard"], ["keychron"], ["logitech", "keyboard"], ["kbd"]]

def mousePatterns : List (List String) :=
  [["mouse"], ["logitech", "mouse"], ["pointing", "device"]]

/-- The four multi-touch codes tested by `_is_touchscreen`. -/
def multitouchCodes : List ℕ :=
  [ABS_MT_POSITION_X, ABS_MT_POSITION_Y, ABS_MT_SLOT, ABS_MT_TRACKING_ID]

/-- Embedding of `DeviceManager._is_touchscreen`: the device has EV_ABS
capabilities containing at least 2 of the multi-touch codes. -/
def isTouchscreenCaps (c : Caps) : Bool :=
  match c.absCodes with
  | none => false
  | some l => decide ((multitouchCodes.filter (fun e => l.contains e)).length ≥ 2)

/-- Reference keys of `_has_keyboard_keys` (A, Z, Enter, Space, Esc,
Left-Ctrl). -/
def referenceKeyboardKeys : List ℕ :=
  [KEY_A, KEY_Z, KEY_ENTER, KEY_SPACE, KEY_ESC, KEY_LEFTCTRL]

/-- Embedding of `DeviceManager._has_keyboard_keys`: at least 3 of the
reference keys among the EV_KEY codes. -/
def hasKeyboardKeys (c : Caps) : Bool :=
  match c.keyCodes with
  | none => false
  | some keys =>
      decide ((referenceKeyboardKeys.filter (fun k => keys.contains k)).length ≥ 3)

/-- Embedding of `DeviceManager._is_pointer_device`: relative or absolute
axes, plus at least one mouse button among the EV_KEY codes (BTN_MOUSE
aliases BTN_LEFT). -/
def isPointerDevice (c : Caps) : Bool :=
  (c.hasRel || c.absCodes.isSome) &&
    (match c.keyCodes with
     | none => false
     | some keys => [BTN_LEFT, BTN_RIGHT, BTN_MIDDLE, BTN_MOUSE].any
         (fun b => keys.contains b))

/-- Embedding of `DeviceManager._classify_device` on the lowercased
device name and the capability bitmap, in the source's strict priority
order. -/
def classifyDevice (name : String) (c : Caps) : DeviceType :=
  if isTouchscreenCaps c then DeviceType.touchscreen
  else if anyPattern touchscreenPatterns name then DeviceType.touchscreen
  else if anyPattern touchpadPatterns name then DeviceType.touchpad
  else if anyPattern keyboardPatterns name then DeviceType.keyboard
  else if anyPattern mousePatterns name then DeviceType.mouse
  else if hasKeyboardKeys c then DeviceType.keyboard
  else if isPointerDevice c then DeviceType.mouse
  else DeviceType.unknown

/-! ## Shared concrete data for counterexamples and witnesses -/

/-- The default chord Ctrl+Alt+L as a key-code set. -/
def demoChord : Finset ℕ := {KEY_LEFTCTRL, KEY_LEFTALT, KEY_L}

/-- A forwarder freshly started with the default chord and the arrows
pattern, as `lock_all` creates it. -/
def demoFwd : FwdState := FwdState.started demoChord arrowsPattern

/-- A started pattern detector that already accepted the first Up. -/
def demoPatternAfterUp : PatternState :=
  (patternHandleKey (PatternState.init arrowsPattern 3) KEY_UP 1 0).1

/-- The forwarder state after the first four arrow presses of the
default unlock pattern. -/
def demoAfterPattern4 : FwdState :=
  (runFwd demoFwd
    [(KEY_UP, 1, 0), (KEY_UP, 1, 0), (KEY_DOWN, 1, 0), (KEY_DOWN, 1, 0)]).1

/-- A running forwarder with two keys currently tracked as pressed. -/
def demoFwdPressed : FwdState :=
  { demoFwd with pressedKeys := {KEY_A, KEY_L} }

/-- Three candidate keyboards for the partial-lock scenario. -/
def demoDevs : List DevEntry :=
  [⟨1, DeviceType.keyboard, true⟩, ⟨2, DeviceType.keyboard, true⟩,
   ⟨3, DeviceType.keyboard, true⟩]

/-- The controller before any lock: unlocked, nothing held, global
hotkey watcher running. -/
def demoUnlocked : BlockerState :=
  { isLocked := false, lockedDevices := ∅, selectiveBlockers := ∅,
    hotkeyRunning := true }

/-- Press Ctrl, press Alt, press L (chord completes), release only L,
press L again — the other two chord keys stay held throughout. -/
def chordRefireEvents : List (ℕ × ℕ × ℕ) :=
  [(KEY_LEFTCTRL, 1, 0), (KEY_LEFTALT, 1, 0), (KEY_L, 1, 0),
   (KEY_L, 0, 0), (KEY_L, 1, 0)]

/-- The forwarder after pressing Ctrl and Alt of the default chord. -/
def demoFwdCtrlAlt : FwdState :=
  (runFwd demoFwd [(KEY_LEFTCTRL, 1, 0), (KEY_LEFTALT, 1, 0)]).1

/-- The forwarder right after the chord completed (guard set). -/
def demoFwdTriggered : FwdState :=
  (handleKeyEvent demoFwdCtrlAlt KEY_L 1 0).1

/-- `_check_hotkey` state for the chord parsed from "Ctrl+Shift+A". -/
def demoShiftChord : CHState :=
  { pressed := ∅, hotkey := (setHotkeyFromString "Ctrl+Shift+A").1,
    lastLock := 0, lockRuns := 0 }

/-- Ctrl, Shift, A pressed with the left-hand Shift. -/
def leftShiftEvents : List (ℕ × ℕ × ℕ) :=
  [(KEY_LEFTCTRL, 1, 1000), (KEY_LEFTSHIFT, 1, 1001), (KEY_A, 1, 1002)]

/-- The same stream with the Shift pressed on the right-hand side. -/
def rightShiftEvents : List (ℕ × ℕ × ℕ) :=
  [(KEY_LEFTCTRL, 1, 1000), (KEY_RIGHTSHIFT, 1, 1001), (KEY_A, 1, 1002)]

/-- A running hotkey handler configured with the default chord. -/
def demoHH : HHState :=
  { hotkeyString := "Ctrl+Alt+L", required := demoChord, pressed := ∅,
    lastTrigger := 0, pending := false, isRunning := true, callbackRuns := 0 }

/-- A handler whose required set was emptied by a bad update. -/
def demoHHEmpty : HHState := { demoHH with required := ∅ }

/-- The emptied handler with a pending callback and one key held. -/
def demoHHPending : HHState :=
  { demoHH with required := ∅, pending := true, pressed := {KEY_A} }

/-! ## Helper lemmas -/

theorem updatePressed_allowedKeys (s : FwdState) (code value : ℕ) :
    (updatePressed s code value).allowedKeys = s.allowedKeys := by
  unfold updatePressed
  split
  · rfl
  · split <;> rfl

theorem updatePressed_hotkeyKeys (s : FwdState) (code value : ℕ) :
    (updatePressed s code value).hotkeyKeys = s.hotkeyKeys := by
  unfold updatePressed
  split
  · rfl
  · split <;> rfl

theorem updatePressed_virtualDevice (s : FwdState) (code value : ℕ) :
    (updatePressed s code value).virtualDevice = s.virtualDevice := by
  unfold updatePressed
  split
  · rfl
  · split <;> rfl

theorem updatePressed_press (s : FwdState) (code : ℕ) :
    updatePressed s code 1 =
      { s with pressedKeys := insert code s.pressedKeys } := by
  unfold updatePressed
  simp

theorem updatePressed_release (s : FwdState) (code : ℕ) :
    updatePressed s code 0 =
      { s with
        pressedKeys := s.pressedKeys.erase code
        hotkeyTriggered :=
          if code ∈ s.allowedKeys then false else s.hotkeyTriggered } := by
  unfold updatePressed
  simp

/-! ## Theorems -/

/-- C9: a device whose absolute-axis capabilities contain at least 2 of
the multi-touch codes classifies as Touchscreen regardless of its name:
the multi-touch test is the first branch of `_classify_device`, before
any name pattern or other capability heuristic. -/
theorem touchscreen_priority (name : String) (c : Caps)
    (h : isTouchscreenCaps c = true) :
    classifyDevice name c = DeviceType.touchscreen := by
  simp [classifyDevice, h]

/-- Witness for C9: a two-multi-touch-code device named like a keyboard
still classifies as Touchscreen. -/
theorem touchscreen_priority_witness :
    classifyDevice "gaming keyboard"
      ⟨some [ABS_MT_POSITION_X, ABS_MT_POSITION_Y], some [KEY_A, KEY_Z, KEY_ENTER], false⟩ =
      DeviceType.touchscreen :=
  touchscreen_priority "gaming keyboard" _ (by decide)

/-- C3 counterexample: in `PatternUnlocker.handle_key` a mismatching
modifier press is NOT ignored: after accepting the first Up of the
arrows pattern, a Left-Ctrl press resets the match position to 0. -/
theorem pattern_modifier_reset_counterexample :
    demoPatternAfterUp.currentSequence = [KEY_UP] ∧
    KEY_LEFTCTRL ∈ modifierCodesLR ∧
    KEY_LEFTCTRL ≠ arrowsPattern.getD 1 0 ∧
    ((patternHandleKey demoPatternAfterUp KEY_LEFTCTRL 1 1).1).currentSequence = [] := by
  decide

/-- C3 amended: on a mismatching key press inside the timeout window,
`_check_pattern` (simple_blocker.py / _internal.py) keeps the current
position when the key is a left/right Ctrl, Alt or Shift and resets it
to 0 otherwise, while `PatternUnlocker.handle_key`
(pattern_unlocker.py) resets the position to 0 for every mismatching
key, modifiers included. -/
theorem pattern_mismatch_behavior (ps : PatternState) (code now : ℕ)
    (hto : ¬ (now - ps.lastKeyTime > ps.timeout))
    (hlen : ps.currentSequence.length < ps.pattern.length)
    (hmm : code ≠ ps.pattern.getD ps.currentSequence.length 0) :
    ((checkPattern ps code now).1.currentSequence =
      if code ∈ modifierCodesLR then ps.currentSequence else []) ∧
    (patternHandleKey ps code 1 now).1.currentSequence = [] := by
  have h1 : ¬ (ps.currentSequence.length ≥ ps.pattern.length) := not_le.mpr hlen
  have hmm' : ¬ (code = ps.pattern[ps.currentSequence.length]?.getD 0) := by
    simpa [List.getD] using hmm
  constructor
  · by_cases hmod : code ∈ modifierCodesLR <;>
      simp [checkPattern, hto, h1, hmm', hmod]
  · simp [patternHandleKey, hto, h1, hmm']

/-- Witness for C3 amended: after one Up, a mismatching Left-Ctrl press
keeps the position in `_check_pattern` and resets it in
`PatternUnlocker.handle_key`. -/
theorem pattern_mismatch_behavior_witness :
    ((checkPattern demoPatternAfterUp KEY_LEFTCTRL 1).1.currentSequence =
      if KEY_LEFTCTRL ∈ modifierCodesLR then demoPatternAfterUp.currentSequence else []) ∧
    (patternHandleKey demoPatternAfterUp KEY_LEFTCTRL 1 1).1.currentSequence = [] :=
  pattern_mismatch_behavior demoPatternAfterUp KEY_LEFTCTRL 1
    (by decide) (by decide) (by decide)

/-- C4 counterexample: configuring `HotkeyHandler` with the
modifiers-only string "Ctrl+Alt" is NOT replaced by the default chord:
the fallback in `__init__` triggers only when the parsed set is empty,
so the unusable two-modifier chord {Left-Ctrl, Left-Alt} is silently
accepted. -/
theorem hotkey_modifiers_only_accepted_counterexample :
    hotkeyHandlerInit "Ctrl+Alt" = ({KEY_LEFTCTRL, KEY_LEFTALT}, "Ctrl+Alt") ∧
    ({KEY_LEFTCTRL, KEY_LEFTALT} : Finset ℕ) ≠ {KEY_LEFTCTRL, KEY_LEFTALT, KEY_L} ∧
    ("Ctrl+Alt" : String) ≠ "Ctrl+Alt+L" := by
  decide

/-- C4 amended: only `_Blocker.set_hotkey_from_string` (api/_internal.py)
rejects a hotkey string without a non-modifier key, replacing it by the
default Ctrl+Alt+L chord; `HotkeyHandler.__init__`
(core/hotkey_handler.py) falls back only when no part of the string
parses at all, so a modifiers-only string such as "Ctrl+Alt" is
silently accepted there. -/
theorem hotkey_modifiers_only_fallback (s : String)
    (h : blockerHasNonModifier s = false) :
    setHotkeyFromString s = ({KEY_LEFTCTRL, KEY_LEFTALT, KEY_L}, "Ctrl+Alt+L") ∧
    hotkeyHandlerInit "Ctrl+Alt" = ({KEY_LEFTCTRL, KEY_LEFTALT}, "Ctrl+Alt") := by
  refine ⟨?_, by decide⟩
  unfold setHotkeyFromString
  by_cases hs : s = ""
  · subst hs
    exact absurd h (by decide)
  · simp only [if_neg hs]
    rw [if_pos (Or.inr h)]

/-- Witness for C4 amended at the modifiers-only string "Ctrl+Alt". -/
theorem hotkey_modifiers_only_fallback_witness :
    setHotkeyFromString "Ctrl+Alt" =
      ({KEY_LEFTCTRL, KEY_LEFTALT, KEY_L}, "Ctrl+Alt+L") ∧
    hotkeyHandlerInit "Ctrl+Alt" = ({KEY_LEFTCTRL, KEY_LEFTALT}, "Ctrl+Alt") :=
  hotkey_modifiers_only_fallback "Ctrl+Alt" (by decide)

/-- C1 counterexample: an allowed key is NOT always replayed onto the
synthetic device.  On the Enter press that completes the unlock
pattern, `_handle_key_event` returns right after the pattern detector
fires, so the event is swallowed even though Enter is in the
forwarder's allowed set and the synthetic device exists. -/
theorem forward_allowed_key_swallowed_counterexample :
    KEY_ENTER ∈ demoAfterPattern4.allowedKeys ∧
    demoAfterPattern4.running = true ∧
    demoAfterPattern4.virtualDevice = true ∧
    (handleKeyEvent demoAfterPattern4 KEY_ENTER 1 0).2 = [Action.callback] ∧
    ((handleKeyEvent demoAfterPattern4 KEY_ENTER 1 0).2.filter Action.isWrite) = [] := by
  decide

/-- C1 amended: a key code outside the allowed set is never written to
the synthetic device; a key code in the allowed set is written whenever
the pattern detector does not fire on that event (on the single event
where the pattern completes, processing stops before forwarding, so
that allowed key press is not replayed). -/
theorem forward_only_allowed (s : FwdState) (code value now : ℕ) :
    (code ∉ s.allowedKeys →
      ((handleKeyEvent s code value now).2.filter Action.isWrite) = []) ∧
    ((patternHandleKey s.pattern code value now).2 = false →
      code ∈ s.allowedKeys → s.virtualDevice = true →
      Action.write 1 code value ∈ (handleKeyEvent s code value now).2) := by
  constructor
  · intro h
    unfold handleKeyEvent
    cases hpr : (patternHandleKey s.pattern code value now).2
    · have hA : (updatePressed
          { s with pattern := (patternHandleKey s.pattern code value now).1 }
          code value).allowedKeys = s.allowedKeys := by
        rw [updatePressed_allowedKeys]
      simp [hpr, hA, h]
    · simp [hpr, Action.isWrite]
  · intro hpf hin hv
    unfold handleKeyEvent
    have hA : (updatePressed
        { s with pattern := (patternHandleKey s.pattern code value now).1 }
        code value).allowedKeys = s.allowedKeys := by
      rw [updatePressed_allowedKeys]
    have hV : (updatePressed
        { s with pattern := (patternHandleKey s.pattern code value now).1 }
        code value).virtualDevice = true := by
      rw [updatePressed_virtualDevice]
      exact hv
    simp only [hpf, hA, hV, Bool.false_eq_true, if_false, if_true]
    simp [hin]
    split <;> simp

/-- Witness for C1 amended: on a fresh forwarder with the default chord,
a press of A (not allowed) produces no synthetic write, and a press of L
(allowed, pattern does not fire) is replayed. -/
theorem forward_only_allowed_witness :
    ((handleKeyEvent demoFwd KEY_A 1 0).2.filter Action.isWrite) = [] ∧
    Action.write 1 KEY_L 1 ∈ (handleKeyEvent demoFwd KEY_L 1 0).2 :=
  ⟨(forward_only_allowed demoFwd KEY_A 1 0).1 (by decide),
   (forward_only_allowed demoFwd KEY_L 1 0).2 (by decide) (by decide) (by decide)⟩

/-- C2: when `stop()` runs on a running forwarder with a live synthetic
device and a non-empty pressed set, it emits a key-release write for
every tracked pressed key and then one sync, all before releasing the
exclusive grab and before destroying the synthetic device, and the
pressed set is empty afterwards. -/
theorem stop_releases_pressed (s : FwdState)
    (hrun : s.running = true) (hv : s.virtualDevice = true)
    (hne : s.pressedKeys ≠ ∅) :
    ∃ rels,
      stopActions s = rels ++ [Action.syn, Action.ungrab, Action.closeVirtual] ∧
      (∀ k ∈ s.pressedKeys, Action.write 1 k 0 ∈ rels) ∧
      (stopState s).pressedKeys = ∅ := by
  refine ⟨(s.pressedKeys.sort (· ≤ ·)).map (fun k => Action.write 1 k 0), ?_, ?_, ?_⟩
  · unfold stopActions
    rw [if_neg (by simp [hrun]), if_pos ⟨hv, hne⟩, if_pos hv]
    simp
  · intro k hk
    exact List.mem_map_of_mem _ ((Finset.mem_sort _).mpr hk)
  · unfold stopState
    rw [if_neg (by simp [hrun])]

/-- Witness for C2 on a forwarder holding A and L pressed. -/
theorem stop_releases_pressed_witness :
    ∃ rels,
      stopActions demoFwdPressed =
        rels ++ [Action.syn, Action.ungrab, Action.closeVirtual] ∧
      (∀ k ∈ demoFwdPressed.pressedKeys, Action.write 1 k 0 ∈ rels) ∧
      (stopState demoFwdPressed).pressedKeys = ∅ :=
  stop_releases_pressed demoFwdPressed (by decide) (by decide) (by decide)

theorem lockDeviceStep_mono (fails : Finset ℕ) (st : BlockerState) (d : DevEntry)
    {x : ℕ} (hx : x ∈ st.lockedDevices) :
    x ∈ (lockDeviceStep fails st d).lockedDevices := by
  unfold lockDeviceStep
  split
  · exact hx
  · split
    · exact hx
    · split
      · exact hx
      · exact Finset.mem_insert_of_mem hx
    · split
      · exact hx
      · exact Finset.mem_insert_of_mem hx
    · split
      · exact hx
      · exact Finset.mem_insert_of_mem hx
    · exact hx

theorem lockDeviceStep_isLocked (fails : Finset ℕ) (st : BlockerState) (d : DevEntry) :
    (lockDeviceStep fails st d).isLocked = st.isLocked := by
  unfold lockDeviceStep
  split
  · rfl
  · split <;> first | rfl | (split <;> rfl)

theorem lockDeviceStep_adds (fails : Finset ℕ) (st : BlockerState) (d : DevEntry)
    (hc : isCandidate d = true) (hf : d.id ∉ fails) :
    d.id ∈ (lockDeviceStep fails st d).lockedDevices := by
  obtain ⟨i, dt, en⟩ := d
  cases dt <;> cases en <;>
    simp_all [isCandidate, lockDeviceStep]

theorem foldl_lock_mono (fails : Finset ℕ) (devs : List DevEntry) :
    ∀ (st : BlockerState) (x : ℕ), x ∈ st.lockedDevices →
      x ∈ (devs.foldl (lockDeviceStep fails) st).lockedDevices := by
  induction devs with
  | nil => exact fun st x hx => hx
  | cons e rest ih =>
      intro st x hx
      exact ih _ x (lockDeviceStep_mono fails st e hx)

theorem foldl_lock_mem (fails : Finset ℕ) (devs : List DevEntry) :
    ∀ (st : BlockerState) (d : DevEntry), d ∈ devs →
      isCandidate d = true → d.id ∉ fails →
      d.id ∈ (devs.foldl (lockDeviceStep fails) st).lockedDevices := by
  induction devs with
  | nil =>
      intro st d hmem
      cases hmem
  | cons e rest ih =>
      intro st d hmem hc hf
      rcases List.mem_cons.mp hmem with he | hr
      · subst he
        exact foldl_lock_mono fails rest _ d.id (lockDeviceStep_adds fails st d hc hf)
      · exact ih _ d hr hc hf

/-- C5: when `lock_all` runs from the unlocked state, a per-device
acquisition failure is tolerated: every enabled keyboard, mouse or
touchpad whose acquisition does not fail ends up locked, and the
controller still transitions to Locked; devices acquired before or after
a failing one are not rolled back. -/
theorem partial_failure_lock (devs : List DevEntry) (fails : Finset ℕ)
    (s : BlockerState) (h : s.isLocked = false) :
    (lockAll devs fails s).isLocked = true ∧
    ∀ d ∈ devs, isCandidate d = true → d.id ∉ fails →
      d.id ∈ (lockAll devs fails s).lockedDevices := by
  unfold lockAll
  rw [if_neg (by simp [h])]
  refine ⟨rfl, ?_⟩
  intro d hd hc hf
  exact foldl_lock_mem fails devs _ d hd hc hf

/-- Witness for C5: with keyboard 2 of 3 failing to acquire, `lock_all`
still locks and keyboards 1 and 3 are held. -/
theorem partial_failure_lock_witness :
    (lockAll demoDevs {2} demoUnlocked).isLocked = true ∧
    1 ∈ (lockAll demoDevs {2} demoUnlocked).lockedDevices ∧
    3 ∈ (lockAll demoDevs {2} demoUnlocked).lockedDevices :=
  ⟨(partial_failure_lock demoDevs {2} demoUnlocked (by decide)).1,
   (partial_failure_lock demoDevs {2} demoUnlocked (by decide)).2
     ⟨1, DeviceType.keyboard, true⟩ (by decide) (by decide) (by decide),
   (partial_failure_lock demoDevs {2} demoUnlocked (by decide)).2
     ⟨3, DeviceType.keyboard, true⟩ (by decide) (by decide) (by decide)⟩

theorem lockAll_isLocked (devs : List DevEntry) (fails : Finset ℕ)
    (s : BlockerState) : (lockAll devs fails s).isLocked = true := by
  unfold lockAll
  split <;> simp_all

theorem lockAll_noop (devs : List DevEntry) (fails : Finset ℕ)
    (t : BlockerState) (h : t.isLocked = true) : lockAll devs fails t = t := by
  unfold lockAll
  rw [if_pos h]

theorem unlockAll_isLocked (s : BlockerState) :
    (unlockAll s).isLocked = false := by
  unfold unlockAll
  split <;> simp_all

theorem unlockAll_noop (t : BlockerState) (h : t.isLocked = false) :
    unlockAll t = t := by
  unfold unlockAll
  rw [if_pos h]

/-- C6: locking while already locked is a no-op leaving the whole
controller state unchanged, and unlocking while already unlocked
likewise, so `lock();lock()` equals one `lock()` and
`unlock();unlock()` one `unlock()` — even when the second lock call
sees a different device list or failure set. -/
theorem lock_unlock_idempotent (devs devs2 : List DevEntry)
    (fails fails2 : Finset ℕ) (s : BlockerState) :
    lockAll devs2 fails2 (lockAll devs fails s) = lockAll devs fails s ∧
    unlockAll (unlockAll s) = unlockAll s :=
  ⟨lockAll_noop devs2 fails2 _ (lockAll_isLocked devs fails s),
   unlockAll_noop _ (unlockAll_isLocked s)⟩

/-- C7 counterexample: the unlock callback CAN fire again before every
key of the chord has been released.  Releasing and re-pressing only L
while Ctrl and Alt stay held yields two callback invocations: the guard
re-arms on the release of any allowed key, not on full chord release. -/
theorem chord_refire_counterexample :
    callbackCount (runFwd demoFwd chordRefireEvents).2 = 2 ∧
    (∀ e ∈ chordRefireEvents, e.2.1 = 0 → e.1 = KEY_L) ∧
    KEY_LEFTCTRL ∈ demoFwd.hotkeyKeys ∧
    KEY_LEFTCTRL ∈ (runFwd demoFwd chordRefireEvents).1.pressedKeys ∧
    KEY_LEFTALT ∈ (runFwd demoFwd chordRefireEvents).1.pressedKeys := by
  decide

/-- C7 amended: on a press edge where the chord is complete and the
guard is clear (and the pattern does not fire), the callback runs
exactly once and the guard is set; while the guard is set, any event
other than the release of an allowed key leaves the guard set and runs
no callback; but the guard re-arms on the release of ANY key in the
allowed set — not only on full chord release — so the callback can fire
again after releasing and re-pressing a single chord key. -/
theorem chord_refire_guard (s : FwdState) (code value now : ℕ) :
    ((patternHandleKey s.pattern code value now).2 = false → value = 1 →
      s.hotkeyTriggered = false → code ∈ s.allowedKeys →
      s.hotkeyKeys ⊆ insert code s.pressedKeys →
      callbackCount (handleKeyEvent s code value now).2 = 1 ∧
      (handleKeyEvent s code value now).1.hotkeyTriggered = true) ∧
    ((patternHandleKey s.pattern code value now).2 = false →
      s.hotkeyTriggered = true → ¬ (value = 0 ∧ code ∈ s.allowedKeys) →
      callbackCount (handleKeyEvent s code value now).2 = 0 ∧
      (handleKeyEvent s code value now).1.hotkeyTriggered = true) ∧
    ((patternHandleKey s.pattern code value now).2 = false → value = 0 →
      code ∈ s.allowedKeys →
      (handleKeyEvent s code value now).1.hotkeyTriggered = false) := by
  refine ⟨?_, ?_, ?_⟩
  · intro hpf h1 hns hin hsub
    subst h1
    unfold handleKeyEvent
    simp only [hpf, Bool.false_eq_true, if_false, updatePressed_press]
    simp [hin, hns, hsub, callbackCount]
    rintro a hv (rfl | rfl) <;> simp
  · intro hpf ht hno
    unfold handleKeyEvent
    simp only [hpf, Bool.false_eq_true, if_false]
    by_cases h1 : value = 1
    · subst h1
      simp only [updatePressed_press]
      by_cases hin : code ∈ s.allowedKeys
      · simp [hin, ht, callbackCount]
        rintro a hv (rfl | rfl) <;> simp
      · simp [hin, ht, callbackCount]
    · by_cases h0 : value = 0
      · subst h0
        have hni : code ∉ s.allowedKeys := fun hc => hno ⟨rfl, hc⟩
        simp only [updatePressed_release]
        simp [hni, ht, callbackCount]
      · have hup : updatePressed
            { s with pattern := (patternHandleKey s.pattern code value now).1 }
            code value =
            { s with pattern := (patternHandleKey s.pattern code value now).1 } := by
          unfold updatePressed
          rw [if_neg h1, if_neg h0]
        simp only [hup]
        by_cases hin : code ∈ s.allowedKeys
        · simp [hin, ht, h1, callbackCount]
          rintro a hv (rfl | rfl) <;> simp
        · simp [hin, ht, callbackCount]
  · intro hpf h0 hin
    subst h0
    unfold handleKeyEvent
    simp only [hpf, Bool.false_eq_true, if_false, updatePressed_release]
    simp [hin]

/-- Witness for C7 amended: completing the chord with L fires the
callback once and sets the guard; a further Alt press while the guard
is set runs nothing; releasing the allowed key L clears the guard. -/
theorem chord_refire_guard_witness :
    (callbackCount (handleKeyEvent demoFwdCtrlAlt KEY_L 1 0).2 = 1 ∧
      (handleKeyEvent demoFwdCtrlAlt KEY_L 1 0).1.hotkeyTriggered = true) ∧
    (callbackCount (handleKeyEvent demoFwdTriggered KEY_LEFTALT 1 0).2 = 0 ∧
      (handleKeyEvent demoFwdTriggered KEY_LEFTALT 1 0).1.hotkeyTriggered = true) ∧
    (handleKeyEvent demoFwdTriggered KEY_L 0 0).1.hotkeyTriggered = false :=
  ⟨(chord_refire_guard demoFwdCtrlAlt KEY_L 1 0).1
      (by decide) rfl (by decide) (by decide) (by decide),
   (chord_refire_guard demoFwdTriggered KEY_LEFTALT 1 0).2.1
      (by decide) (by decide) (by decide),
   (chord_refire_guard demoFwdTriggered KEY_L 0 0).2.2
      (by decide) rfl (by decide)⟩

/-- C8 counterexample: chord detection is NOT side-insensitive.  With
the chord "Ctrl+Shift+A", the stream using Left-Shift fires the lock
and the identical stream using Right-Shift does not, because
`_check_hotkey` folds only Right-Ctrl and Right-Alt, leaving Right-Shift
uncanonicalized. -/
theorem modifier_canonicalization_counterexample :
    (runCH demoShiftChord leftShiftEvents).lockRuns = 1 ∧
    (runCH demoShiftChord rightShiftEvents).lockRuns = 0 ∧
    checkHotkeyCanon KEY_RIGHTSHIFT = KEY_RIGHTSHIFT := by
  decide

/-- C8 amended: the only canonicalization in the code is in
`_check_hotkey` (api/_internal.py, api/simple_blocker.py), and it folds
only Right-Ctrl to Left-Ctrl and Right-Alt to Left-Alt, leaving
Right-Shift unchanged; `HotkeyHandler._handle_key_event`
(core/hotkey_handler.py) tracks the raw event code with no
canonicalization at all.  Side-insensitivity therefore holds only for
Ctrl and Alt, and only in `_check_hotkey`. -/
theorem modifier_canonicalization (s : HHState) (code now : ℕ) :
    checkHotkeyCanon KEY_RIGHTCTRL = KEY_LEFTCTRL ∧
    checkHotkeyCanon KEY_RIGHTALT = KEY_LEFTALT ∧
    checkHotkeyCanon KEY_RIGHTSHIFT = KEY_RIGHTSHIFT ∧
    (hhHandleKey s code 1 now).pressed = insert code s.pressed ∧
    (hhHandleKey s code 0 now).pressed = s.pressed.erase code := by
  refine ⟨rfl, rfl, rfl, ?_, ?_⟩
  · unfold hhHandleKey
    simp only [if_pos]
    split
    · split <;> rfl
    · rfl
  · unfold hhHandleKey
    simp only [if_neg (by decide : ¬ (0 : ℕ) = 1), if_pos]
    split
    · rfl
    · rfl

/-- C10: when `update_hotkey` is called with a string in which no part
parses to a known key code, the handler's required set becomes the empty
set — neither the previous chord nor the default is restored; since the
empty set is a subset of every pressed set, any key press (once the
debounce interval has elapsed) marks the callback pending, and the
callback then runs on the release that empties the pressed set. -/
theorem empty_hotkey_update (s : HHState) (str : String)
    (h : parseHotkey str = ∅) :
    (hhUpdateHotkey s str).required = ∅ ∧
    (∀ (t : HHState) (code now : ℕ), t.required = ∅ →
      t.required ⊆ insert code t.pressed ∧
      (¬ (now - t.lastTrigger < hhDebounce) →
        (hhHandleKey t code 1 now).pending = true)) ∧
    (∀ (t : HHState) (code now : ℕ), t.pending = true →
      t.pressed.erase code = ∅ →
      (hhHandleKey t code 0 now).callbackRuns = t.callbackRuns + 1) := by
  refine ⟨?_, ?_, ?_⟩
  · by_cases hr : s.isRunning <;>
      simp [hhUpdateHotkey, hhStop, hhStart, h, hr]
  · intro t code now ht
    constructor
    · rw [ht]
      exact Finset.empty_subset _
    · intro hd
      simp [hhHandleKey, ht, Finset.empty_subset, hd]
  · intro t code now hp he
    simp [hhHandleKey, hp, he]

/-- Witness for C10 at the unparseable string "Foo+Bar" and key A. -/
theorem empty_hotkey_update_witness :
    (hhUpdateHotkey demoHH "Foo+Bar").required = ∅ ∧
    demoHHEmpty.required ⊆ insert KEY_A demoHHEmpty.pressed ∧
    (hhHandleKey demoHHEmpty KEY_A 1 1000).pending = true ∧
    (hhHandleKey demoHHPending KEY_A 0 1001).callbackRuns =
      demoHHPending.callbackRuns + 1 :=
  ⟨(empty_hotkey_update demoHH "Foo+Bar" (by decide)).1,
   ((empty_hotkey_update demoHH "Foo+Bar" (by decide)).2.1
      demoHHEmpty KEY_A 1000 (by decide)).1,
   ((empty_hotkey_update demoHH "Foo+Bar" (by decide)).2.1
      demoHHEmpty KEY_A 1000 (by decide)).2 (by decide),
   (empty_hotkey_update demoHH "Foo+Bar" (by decide)).2.2
      demoHHPending KEY_A 1001 (by decide) (by decide)⟩

end InputLocker
